import Mathlib

/-!
Verification development for the Devprod reconciliation tool.

The embedding follows src/devprod.ts and src/roblox.ts:
pure functions are translated directly; in-place entry mutation is
modelled by returning the updated entry; the network is modelled by an
oracle (`RobloxEnv`) supplied to the orchestration functions together
with an explicit trace of issued calls.
-/

/-- JavaScript truthiness of an optional number: `undefined`/`null` and `0`
are falsy, every other number is truthy. -/
def truthy : Option Nat → Bool
  | none => false
  | some n => n != 0

/-- The hashProduct object built inside getHash (devprod.ts lines 86-92):
the five remote-facing fields of an entry, with absent optional fields kept
as an explicit absent marker (`none`), exactly as object-hash serializes a
key whose value is `undefined`. -/
structure HashProduct where
  productId : Option Nat
  name : String
  description : Option String
  price : Option Nat
  imageId : Option Nat
deriving DecidableEq, Repr

/-- One configured product or gamepass entry (interface IConfigDevprod,
devprod.ts lines 18-26). `uploadedHash` stores the fingerprint of the last
successful write. The sha1/base64 digest applied by object-hash is
abstracted as an injective map, so a stored fingerprint is modelled as the
digest's preimage, a `HashProduct`; fingerprint equality is equality of the
five projected fields. -/
structure IConfigDevprod where
  productId : Option Nat
  gamepassId : Option Nat
  name : String
  description : Option String
  price : Option Nat
  imageId : Option Nat
  uploadedHash : Option HashProduct
deriving DecidableEq, Repr

/-- Operation flags (interface IOptions, devprod.ts lines 4-10); the cookie
is opaque to the logic and omitted. -/
structure IOptions where
  create : Bool
  update : Bool
  updateAll : Bool
  hash : Bool
deriving DecidableEq, Repr

/-- A validated catalogue (interface IConfig, devprod.ts lines 12-16). -/
structure IConfig where
  universeId : Nat
  products : List IConfigDevprod
  gamepasses : List IConfigDevprod
deriving DecidableEq, Repr

/-- getHash (devprod.ts lines 85-105): project the entry onto the
hashProduct object. The subsequent sha1/base64 digest is abstracted as
injective (the spec treats collisions as negligible), so the fingerprint is
modelled by the hash input itself. Note the source reads `product.productId`
only — `gamepassId` is never part of the hash input. -/
def getHash (product : IConfigDevprod) : HashProduct :=
  { productId := product.productId
    name := product.name
    description := product.description
    price := product.price
    imageId := product.imageId }

/-- isEntryOutdated (devprod.ts lines 107-112). `!product.productId` and
`!product.gamepassId` are JavaScript truthiness tests, so an id equal to 0
counts as absent here. -/
def isEntryOutdated (product : IConfigDevprod) : Bool :=
  if (!truthy product.productId && !truthy product.gamepassId) || product.uploadedHash.isNone then
    true
  else
    match product.uploadedHash with
    | none => true
    | some h => getHash product != h

/-- The five result lists of checkEntries (devprod.ts lines 163-216). -/
structure CheckResult where
  toAdd : List IConfigDevprod
  toNotAdd : List IConfigDevprod
  outdated : List IConfigDevprod
  toUpdate : List IConfigDevprod
  toNotUpdate : List IConfigDevprod
deriving DecidableEq, Repr

/-- Body of the products loop of checkEntries (devprod.ts lines 169-190),
acting on the accumulated result lists: push is modelled by appending. -/
def checkProductStep (options : IOptions) (acc : CheckResult) (product : IConfigDevprod) : CheckResult :=
  if product.productId.isNone then
    if options.create then
      { acc with toAdd := acc.toAdd ++ [product] }
    else
      { acc with toNotAdd := acc.toNotAdd ++ [product] }
  else if isEntryOutdated product then
    if options.update || options.updateAll then
      { acc with outdated := acc.outdated ++ [product], toUpdate := acc.toUpdate ++ [product] }
    else
      { acc with outdated := acc.outdated ++ [product], toNotUpdate := acc.toNotUpdate ++ [product] }
  else if options.updateAll then
    { acc with toUpdate := acc.toUpdate ++ [product] }
  else
    { acc with toNotUpdate := acc.toNotUpdate ++ [product] }

/-- Body of the gamepasses loop of checkEntries (devprod.ts lines 191-208):
a gamepass without a gamepassId is pushed to toNotAdd unconditionally —
there is no create path for gamepasses. -/
def checkGamepassStep (options : IOptions) (acc : CheckResult) (product : IConfigDevprod) : CheckResult :=
  if product.gamepassId.isNone then
    { acc with toNotAdd := acc.toNotAdd ++ [product] }
  else if isEntryOutdated product then
    if options.update || options.updateAll then
      { acc with outdated := acc.outdated ++ [product], toUpdate := acc.toUpdate ++ [product] }
    else
      { acc with outdated := acc.outdated ++ [product], toNotUpdate := acc.toNotUpdate ++ [product] }
  else if options.updateAll then
    { acc with toUpdate := acc.toUpdate ++ [product] }
  else
    { acc with toNotUpdate := acc.toNotUpdate ++ [product] }

/-- checkEntries (devprod.ts lines 163-216): classify all products, then
all gamepasses, into the five lists. -/
def checkEntries (config : IConfig) (options : IOptions) : CheckResult :=
  config.gamepasses.foldl (checkGamepassStep options)
    (config.products.foldl (checkProductStep options)
      { toAdd := [], toNotAdd := [], outdated := [], toUpdate := [], toNotUpdate := [] })

/-- The payload of a developer-product create/update call
(interface IDevprodUpdateOptions, roblox.ts lines 5-10), as built at the
call sites in devprod.ts. -/
structure IDevprodUpdateOptions where
  Name : String
  Description : Option String
  IconImageAssetId : Option Nat
  PriceInRobux : Option Nat
deriving DecidableEq, Repr

/-- The payload of a gamepass update call (interface IGamepassUpdateOptions,
roblox.ts lines 12-18), as built in devprod.ts updateGamepass. -/
structure IGamepassUpdateOptions where
  name : String
  description : Option String
  isForSale : Bool
  price : Option Nat
deriving DecidableEq, Repr

/-- The error raised by the roblox.ts adapters (class DevprodError,
roblox.ts lines 20-29; the raw response is opaque and omitted). -/
structure DevprodError where
  code : Int
  message : String
deriving DecidableEq, Repr

/-- An error recorded against an entry by updateEntries: either the plain
Error thrown by the updateProduct/updateGamepass runtime guards, or a
DevprodError propagated from a roblox.ts adapter. -/
inductive EntryError where
  | contract (message : String)
  | devprod (e : DevprodError)
deriving DecidableEq, Repr

/-- One network call issued through roblox.ts, recorded in the trace. -/
inductive NetCall where
  | add (universeId : Nat) (payload : IDevprodUpdateOptions)
  | updateProd (universeId : Nat) (productId : Nat) (payload : IDevprodUpdateOptions)
  | updateGp (universeId : Nat) (gamepassId : Nat) (payload : IGamepassUpdateOptions)
deriving DecidableEq, Repr

/-- Oracle for the three remote operations of roblox.ts: devprodAdd returns
the new productId, the two update operations succeed or fail. The network
and response parsing are external; the oracle stands for their combined
outcome. -/
structure RobloxEnv where
  devprodAdd : Nat → IDevprodUpdateOptions → Except DevprodError Nat
  devprodUpdate : Nat → Nat → IDevprodUpdateOptions → Except DevprodError Unit
  gamepassUpdate : Nat → Nat → IGamepassUpdateOptions → Except DevprodError Unit

/-- The IDevprodUpdateOptions object built from an entry at the call sites
in addProduct and updateProduct (devprod.ts lines 116-121 and 134-139). -/
def toDevprodOptions (product : IConfigDevprod) : IDevprodUpdateOptions :=
  { Name := product.name
    Description := product.description
    IconImageAssetId := product.imageId
    PriceInRobux := product.price }

/-- The IGamepassUpdateOptions object built in updateGamepass (devprod.ts
lines 151-156): `isForSale` is `product.price ? product.price !== 0 : false`,
i.e. the truthiness of the price. -/
def toGamepassOptions (product : IConfigDevprod) : IGamepassUpdateOptions :=
  { name := product.name
    description := product.description
    isForSale := truthy product.price
    price := product.price }

/-- addProduct (devprod.ts lines 114-127): call devprodAdd; on success set
the entry's productId to the returned id, then overwrite uploadedHash with
the hash of the updated entry. The in-place mutation is modelled by
returning the updated entry; the issued network calls are returned as a
trace. -/
def addProduct (env : RobloxEnv) (universeId : Nat) (product : IConfigDevprod) :
    List NetCall × Except EntryError IConfigDevprod :=
  ([NetCall.add universeId (toDevprodOptions product)],
    match env.devprodAdd universeId (toDevprodOptions product) with
    | .error e => .error (.devprod e)
    | .ok productId =>
      let product := { product with productId := some productId }
      .ok { product with uploadedHash := some (getHash product) })

/-- updateProduct (devprod.ts lines 129-144): entries whose productId is
not a number fail with a plain Error before the network call; otherwise
call devprodUpdate and on success overwrite uploadedHash. -/
def updateProduct (env : RobloxEnv) (universeId : Nat) (product : IConfigDevprod) :
    List NetCall × Except EntryError IConfigDevprod :=
  match product.productId with
  | none => ([], .error (.contract "Bad or missing productId at runtime"))
  | some productId =>
    ([NetCall.updateProd universeId productId (toDevprodOptions product)],
      match env.devprodUpdate universeId productId (toDevprodOptions product) with
      | .error e => .error (.devprod e)
      | .ok _ => .ok { product with uploadedHash := some (getHash product) })

/-- updateGamepass (devprod.ts lines 146-161): entries whose gamepassId is
not a number fail with a plain Error before the network call; otherwise
call gamepassUpdate and on success overwrite uploadedHash. -/
def updateGamepass (env : RobloxEnv) (universeId : Nat) (product : IConfigDevprod) :
    List NetCall × Except EntryError IConfigDevprod :=
  match product.gamepassId with
  | none => ([], .error (.contract "Bad or missing gamepassId at runtime"))
  | some gamepassId =>
    ([NetCall.updateGp universeId gamepassId (toGamepassOptions product)],
      match env.gamepassUpdate universeId gamepassId (toGamepassOptions product) with
      | .error e => .error (.devprod e)
      | .ok _ => .ok { product with uploadedHash := some (getHash product) })

/-- The toAdd loop of updateEntries (devprod.ts lines 224-231): each entry
is attempted in order; a success is pushed (in its post-call state) to
addSuccess, a failure is pushed with its error to addFailed, and the loop
continues. Returns (successes, failures, trace). -/
def processAdds (env : RobloxEnv) (universeId : Nat) :
    List IConfigDevprod →
      List IConfigDevprod × List (IConfigDevprod × EntryError) × List NetCall
  | [] => ([], [], [])
  | product :: rest =>
    let r := addProduct env universeId product
    let r2 := processAdds env universeId rest
    match r.2 with
    | .ok updated => (updated :: r2.1, r2.2.1, r.1 ++ r2.2.2)
    | .error e => (r2.1, (product, e) :: r2.2.1, r.1 ++ r2.2.2)

/-- The toUpdate loop of updateEntries (devprod.ts lines 232-243):
`if (product.productId)` and `else if (product.gamepassId)` are JavaScript
truthiness tests, so an entry with both ids falsy calls no adapter and is
still pushed to updateSuccess unchanged. -/
def processUpdates (env : RobloxEnv) (universeId : Nat) :
    List IConfigDevprod →
      List IConfigDevprod × List (IConfigDevprod × EntryError) × List NetCall
  | [] => ([], [], [])
  | product :: rest =>
    let r :=
      if truthy product.productId then
        updateProduct env universeId product
      else if truthy product.gamepassId then
        updateGamepass env universeId product
      else
        ([], .ok product)
    let r2 := processUpdates env universeId rest
    match r.2 with
    | .ok updated => (updated :: r2.1, r2.2.1, r.1 ++ r2.2.2)
    | .error e => (r2.1, (product, e) :: r2.2.1, r.1 ++ r2.2.2)

/-- The report returned by updateEntries (devprod.ts lines 244-249): the
classification lists plus the four outcome lists, and the trace of network
calls issued during the pass. -/
structure UpdateReport where
  actions : CheckResult
  addSuccess : List IConfigDevprod
  addFailed : List (IConfigDevprod × EntryError)
  updateSuccess : List IConfigDevprod
  updateFailed : List (IConfigDevprod × EntryError)
  calls : List NetCall
deriving Repr

/-- updateEntries (devprod.ts lines 218-250): classify, then process every
toAdd entry, then every toUpdate entry, aggregating per-entry outcomes. -/
def updateEntries (env : RobloxEnv) (config : IConfig) (options : IOptions) : UpdateReport :=
  let actions := checkEntries config options
  let adds := processAdds env config.universeId actions.toAdd
  let updates := processUpdates env config.universeId actions.toUpdate
  { actions := actions
    addSuccess := adds.1
    addFailed := adds.2.1
    updateSuccess := updates.1
    updateFailed := updates.2.1
    calls := adds.2.2 ++ updates.2.2 }

/-- The counters returned by hashEntries (devprod.ts lines 275-278). -/
structure HashCount where
  total : Nat
  updated : Nat
deriving DecidableEq, Repr

/-- Body of the products loop of hashEntries (devprod.ts lines 255-264):
entries with a productId are counted and their uploadedHash is rewritten
when stale. State: (entries so far, counters). -/
def hashProductStep (st : List IConfigDevprod × HashCount) (product : IConfigDevprod) :
    List IConfigDevprod × HashCount :=
  if product.productId.isSome then
    let newHash := getHash product
    if some newHash != product.uploadedHash then
      (st.1 ++ [{ product with uploadedHash := some newHash }],
        { total := st.2.total + 1, updated := st.2.updated + 1 })
    else
      (st.1 ++ [product], { st.2 with total := st.2.total + 1 })
  else
    (st.1 ++ [product], st.2)

/-- Body of the gamepasses loop of hashEntries (devprod.ts lines 265-274):
gated on gamepassId, matching the products loop. -/
def hashGamepassStep (st : List IConfigDevprod × HashCount) (product : IConfigDevprod) :
    List IConfigDevprod × HashCount :=
  if product.gamepassId.isSome then
    let newHash := getHash product
    if some newHash != product.uploadedHash then
      (st.1 ++ [{ product with uploadedHash := some newHash }],
        { total := st.2.total + 1, updated := st.2.updated + 1 })
    else
      (st.1 ++ [product], { st.2 with total := st.2.total + 1 })
  else
    (st.1 ++ [product], st.2)

/-- hashEntries (devprod.ts lines 252-279): recompute the stored hashes of
all existing entries without touching the network. The in-place mutation is
modelled by returning the updated config together with the counters. -/
def hashEntries (config : IConfig) : IConfig × HashCount :=
  let prods := config.products.foldl hashProductStep ([], { total := 0, updated := 0 })
  let gps := config.gamepasses.foldl hashGamepassStep ([], prods.2)
  ({ config with products := prods.1, gamepasses := gps.1 }, gps.2)

/-- The two result lists of checkHashEntries (devprod.ts lines 304-307). -/
structure HashCheckResult where
  toUpdate : List IConfigDevprod
  toNotUpdate : List IConfigDevprod
deriving DecidableEq, Repr

/-- checkHashEntries (devprod.ts lines 281-308), the dry-run preview of
hashEntries. NOTE, faithful to the source: the gamepasses loop (line 295)
tests `product.productId`, not `product.gamepassId`. -/
def checkHashEntries (config : IConfig) : HashCheckResult :=
  let step := fun (acc : HashCheckResult) (product : IConfigDevprod) =>
    if product.productId.isSome then
      if some (getHash product) != product.uploadedHash then
        { acc with toUpdate := acc.toUpdate ++ [product] }
      else
        { acc with toNotUpdate := acc.toNotUpdate ++ [product] }
    else
      acc
  config.gamepasses.foldl step
    (config.products.foldl step { toUpdate := [], toNotUpdate := [] })

/-- A successful HTTP response as seen by robloxRequest (roblox.ts lines
42-52): only the x-csrf-token header matters to the token logic; the body
and the resolveWithFullResponse plumbing are presentation and omitted. -/
structure Resp where
  token : Option String
deriving DecidableEq, Repr

/-- A failed HTTP attempt as seen by robloxRequest (roblox.ts lines 53-63):
the optional x-csrf-token header, status code and status message of the
error response. A missing error.response is the case where all three are
absent. -/
structure ErrResp where
  token : Option String
  statusCode : Option Nat
  statusMessage : Option String
deriving DecidableEq, Repr

/-- JavaScript truthiness guard on the x-csrf-token header: the stored
token is replaced only when the header is present and non-empty
(roblox.ts lines 44-46 and 55-57). -/
def tokenUpdate (current : Option String) (header : Option String) : Option String :=
  match header with
  | some t => if t = "" then current else some t
  | none => current

/-- The token-rejection signal (roblox.ts line 58): status 403 together
with one of the two designated status messages. -/
def isTokenRejection (e : ErrResp) : Bool :=
  e.statusCode == some 403 &&
    (e.statusMessage == some "XSRF Token Validation Failed" ||
      e.statusMessage == some "Token Validation Failed")

deriving instance DecidableEq for Except

/-- Outcome of one robloxRequest call: the shared token afterwards, the
surfaced result, and how many HTTP attempts were issued. -/
structure RequestOutcome where
  lastToken : Option String
  result : Except ErrResp Resp
  attempts : Nat
deriving DecidableEq, Repr

/-- robloxRequest (roblox.ts lines 32-65). The transport oracle gives the
outcome of attempt n. A successful first attempt stores its refreshed
token and returns. A failed first attempt stores the error's refreshed
token; if the failure is the token-rejection signal the call is reissued
once and that second outcome is returned unmodified — its token header is
not stored and no further attempt is made; any other failure propagates
immediately. -/
def robloxRequest (transport : Nat → Except ErrResp Resp) (lastToken : Option String) :
    RequestOutcome :=
  match transport 0 with
  | .ok r =>
    { lastToken := tokenUpdate lastToken r.token, result := .ok r, attempts := 1 }
  | .error e =>
    let tok := tokenUpdate lastToken e.token
    if isTokenRejection e then
      { lastToken := tok, result := transport 1, attempts := 2 }
    else
      { lastToken := tok, result := .error e, attempts := 1 }

/-- Predicate for the toAdd bucket of the products loop. -/
def prodToAddP (o : IOptions) (p : IConfigDevprod) : Bool :=
  p.productId.isNone && o.create

/-- Predicate for the toNotAdd bucket of the products loop. -/
def prodToNotAddP (o : IOptions) (p : IConfigDevprod) : Bool :=
  p.productId.isNone && !o.create

/-- Predicate for the outdated list of the products loop. -/
def prodOutdatedP (p : IConfigDevprod) : Bool :=
  !p.productId.isNone && isEntryOutdated p

/-- Predicate for the toUpdate bucket of the products loop. -/
def prodToUpdateP (o : IOptions) (p : IConfigDevprod) : Bool :=
  !p.productId.isNone &&
    (if isEntryOutdated p then o.update || o.updateAll else o.updateAll)

/-- Predicate for the toNotUpdate bucket of the products loop. -/
def prodToNotUpdateP (o : IOptions) (p : IConfigDevprod) : Bool :=
  !p.productId.isNone &&
    (if isEntryOutdated p then !(o.update || o.updateAll) else !o.updateAll)

/-- Predicate for the toNotAdd bucket of the gamepasses loop. -/
def gpToNotAddP (p : IConfigDevprod) : Bool :=
  p.gamepassId.isNone

/-- Predicate for the outdated list of the gamepasses loop. -/
def gpOutdatedP (p : IConfigDevprod) : Bool :=
  !p.gamepassId.isNone && isEntryOutdated p

/-- Predicate for the toUpdate bucket of the gamepasses loop. -/
def gpToUpdateP (o : IOptions) (p : IConfigDevprod) : Bool :=
  !p.gamepassId.isNone &&
    (if isEntryOutdated p then o.update || o.updateAll else o.updateAll)

/-- Predicate for the toNotUpdate bucket of the gamepasses loop. -/
def gpToNotUpdateP (o : IOptions) (p : IConfigDevprod) : Bool :=
  !p.gamepassId.isNone &&
    (if isEntryOutdated p then !(o.update || o.updateAll) else !o.updateAll)

/-! Concrete test data used by counterexamples and witnesses. -/

/-- A minimal entry: every optional field absent. -/
def baseEntry : IConfigDevprod :=
  { productId := none, gamepassId := none, name := "Example", description := none,
    price := none, imageId := none, uploadedHash := none }

/-- Flags: create only. -/
def optsCreate : IOptions :=
  { create := true, update := false, updateAll := false, hash := false }

/-- Flags: update only. -/
def optsUpdate : IOptions :=
  { create := false, update := true, updateAll := false, hash := false }

/-- Flags: all off. -/
def optsNone : IOptions :=
  { create := false, update := false, updateAll := false, hash := false }

/-- A never-synced gamepass entry (no gamepassId). -/
def gpNew : IConfigDevprod := { baseEntry with name := "NewPass" }

/-- A catalogue holding only the never-synced gamepass. -/
def cfgGpNew : IConfig := { universeId := 1, products := [], gamepasses := [gpNew] }

/-- A gamepass entry with remote id 1. -/
def gpOne : IConfigDevprod := { baseEntry with gamepassId := some 1, name := "Pass" }

/-- The same gamepass entry with remote id 2 instead. -/
def gpTwo : IConfigDevprod := { baseEntry with gamepassId := some 2, name := "Pass" }

/-- A catalogue holding only the existing gamepass gpOne. -/
def cfgGpOne : IConfig := { universeId := 1, products := [], gamepasses := [gpOne] }

/-- A product entry with remote id 7 and no stored fingerprint, hence
outdated. -/
def prodStale : IConfigDevprod := { baseEntry with productId := some 7, name := "Stale" }

/-- A catalogue holding only the outdated product. -/
def cfgProdStale : IConfig := { universeId := 1, products := [prodStale], gamepasses := [] }

/-- A product entry whose productId is 0, falsy in JavaScript. -/
def prodZero : IConfigDevprod := { baseEntry with productId := some 0, name := "Zero" }

/-- A catalogue holding only the id-0 product. -/
def cfgProdZero : IConfig := { universeId := 1, products := [prodZero], gamepasses := [] }

/-- An oracle whose three operations all fail with DevprodError -1. -/
def envFail : RobloxEnv :=
  { devprodAdd := fun _ _ => .error { code := -1, message := "fail" }
    devprodUpdate := fun _ _ _ => .error { code := -1, message := "fail" }
    gamepassUpdate := fun _ _ _ => .error { code := -1, message := "fail" } }

/-- A transport whose first attempt is a token rejection carrying refreshed
token "a" and whose retry succeeds carrying refreshed token "b". -/
def transportRetryOk : Nat → Except ErrResp Resp := fun n =>
  if n = 0 then
    .error { token := some "a", statusCode := some 403,
             statusMessage := some "Token Validation Failed" }
  else
    .ok { token := some "b" }

/-- A transport that always fails with a plain 500, not a token
rejection. -/
def transportFail500 : Nat → Except ErrResp Resp := fun _ =>
  .error { token := none, statusCode := some 500,
           statusMessage := some "Internal Server Error" }

/-- Occurrence count in a filtered list, both branches. -/
theorem count_filter_ite {α : Type} [DecidableEq α] (p : α → Bool) (l : List α) (a : α) :
    (l.filter p).count a = if p a then l.count a else 0 := by
  by_cases h : p a
  · simp [h]
  · simp only [h, if_neg, Bool.false_eq_true, not_false_iff]
    rw [List.count_eq_zero]
    intro hm
    rw [List.mem_filter] at hm
    simp [h] at hm

/-- The products loop appends to each bucket exactly the entries selected
by its predicate, in order. -/
theorem foldl_checkProductStep (o : IOptions) (l : List IConfigDevprod) (acc : CheckResult) :
    l.foldl (checkProductStep o) acc =
      { toAdd := acc.toAdd ++ l.filter (prodToAddP o)
        toNotAdd := acc.toNotAdd ++ l.filter (prodToNotAddP o)
        outdated := acc.outdated ++ l.filter prodOutdatedP
        toUpdate := acc.toUpdate ++ l.filter (prodToUpdateP o)
        toNotUpdate := acc.toNotUpdate ++ l.filter (prodToNotUpdateP o) } := by
  induction l generalizing acc with
  | nil => simp
  | cons p rest ih =>
    rw [List.foldl_cons, ih]
    unfold checkProductStep prodToAddP prodToNotAddP prodOutdatedP prodToUpdateP prodToNotUpdateP
    by_cases h1 : p.productId.isNone <;> by_cases h2 : o.create <;>
      by_cases h3 : isEntryOutdated p <;> by_cases h4 : (o.update || o.updateAll) = true <;>
      by_cases h5 : o.updateAll <;>
      simp_all [List.filter_cons, Option.isSome_iff_ne_none]

/-- The gamepasses loop appends to each bucket exactly the entries selected
by its predicate, in order; it never appends to toAdd. -/
theorem foldl_checkGamepassStep (o : IOptions) (l : List IConfigDevprod) (acc : CheckResult) :
    l.foldl (checkGamepassStep o) acc =
      { toAdd := acc.toAdd
        toNotAdd := acc.toNotAdd ++ l.filter gpToNotAddP
        outdated := acc.outdated ++ l.filter gpOutdatedP
        toUpdate := acc.toUpdate ++ l.filter (gpToUpdateP o)
        toNotUpdate := acc.toNotUpdate ++ l.filter (gpToNotUpdateP o) } := by
  induction l generalizing acc with
  | nil => simp
  | cons p rest ih =>
    rw [List.foldl_cons, ih]
    unfold checkGamepassStep gpToNotAddP gpOutdatedP gpToUpdateP gpToNotUpdateP
    by_cases h1 : p.gamepassId.isNone <;>
      by_cases h3 : isEntryOutdated p <;> by_cases h4 : (o.update || o.updateAll) = true <;>
      by_cases h5 : o.updateAll <;>
      simp_all [List.filter_cons, Option.isSome_iff_ne_none]

/-- Closed form of checkEntries: each bucket is the concatenation of the
filtered products and the filtered gamepasses. -/
theorem checkEntries_eq (config : IConfig) (o : IOptions) :
    checkEntries config o =
      { toAdd := config.products.filter (prodToAddP o)
        toNotAdd := config.products.filter (prodToNotAddP o) ++
          config.gamepasses.filter gpToNotAddP
        outdated := config.products.filter prodOutdatedP ++
          config.gamepasses.filter gpOutdatedP
        toUpdate := config.products.filter (prodToUpdateP o) ++
          config.gamepasses.filter (gpToUpdateP o)
        toNotUpdate := config.products.filter (prodToNotUpdateP o) ++
          config.gamepasses.filter (gpToNotUpdateP o) } := by
  unfold checkEntries
  rw [foldl_checkProductStep, foldl_checkGamepassStep]
  simp

/-- C1 (corrected): a product entry with no remote identifier is classified
toAdd precisely when flags.create is set and toNotAdd otherwise, while a
pass entry with no remote identifier is always classified toNotAdd,
regardless of flags.create — the create rule does not extend to pass
entries. -/
theorem C1_no_remoteId_create_rule (config : IConfig) (options : IOptions) (p : IConfigDevprod) :
    (p ∈ (checkEntries config options).toAdd ↔
      p ∈ config.products ∧ p.productId = none ∧ options.create = true) ∧
    (p ∈ (checkEntries config options).toNotAdd ↔
      (p ∈ config.products ∧ p.productId = none ∧ options.create = false) ∨
        (p ∈ config.gamepasses ∧ p.gamepassId = none)) := by
  rw [checkEntries_eq]
  constructor
  · simp [List.mem_filter, prodToAddP, Option.isNone_iff_eq_none, and_assoc]
  · simp [List.mem_filter, prodToNotAddP, gpToNotAddP, Option.isNone_iff_eq_none, and_assoc]

/-- C1 counterexample: a pass entry with no remote identifier under
flags.create = true is placed in toNotAdd and not in toAdd, contrary to the
claim that the create rule applies to pass entries exactly as to product
entries. -/
theorem C1_counterexample :
    gpNew.gamepassId = none ∧ optsCreate.create = true ∧
      (checkEntries cfgGpNew optsCreate).toAdd = [] ∧
      (checkEntries cfgGpNew optsCreate).toNotAdd = [gpNew] := by
  exact ⟨rfl, rfl, rfl, rfl⟩

/-- C2 (corrected): a change to productId changes the fingerprint — two
entries agreeing on name, description, price and imageId but differing in
productId have different fingerprints — whereas the pass remote identifier
gamepassId does not participate in the fingerprint at all. -/
theorem C2_remoteId_fingerprint (p1 p2 : IConfigDevprod) (g : Option Nat) :
    (p1.name = p2.name → p1.description = p2.description → p1.price = p2.price →
      p1.imageId = p2.imageId → p1.productId ≠ p2.productId →
        getHash p1 ≠ getHash p2) ∧
    getHash { p1 with gamepassId := g } = getHash p1 := by
  constructor
  · intro _ _ _ _ hpid h
    exact hpid (by simpa [getHash] using congrArg HashProduct.productId h)
  · rfl

/-- Witness for C2_remoteId_fingerprint at concrete entries. -/
theorem C2_remoteId_fingerprint_witness :
    getHash { baseEntry with productId := some 1 } ≠
        getHash { baseEntry with productId := some 2 } ∧
      getHash { baseEntry with gamepassId := some 5 } = getHash baseEntry := by
  constructor
  · exact (C2_remoteId_fingerprint { baseEntry with productId := some 1 }
      { baseEntry with productId := some 2 } none).1 rfl rfl rfl rfl (by decide)
  · exact (C2_remoteId_fingerprint baseEntry baseEntry (some 5)).2

/-- C2 counterexample: two pass entries that differ only in their remote
identifier (gamepassId 1 vs 2) have identical fingerprints. -/
theorem C2_counterexample :
    gpOne ≠ gpTwo ∧ gpOne.gamepassId ≠ gpTwo.gamepassId ∧
      getHash gpOne = getHash gpTwo := by
  exact ⟨by decide, by decide, rfl⟩

/-- C9: an entry with price absent and the otherwise identical entry with
any present price value have different fingerprints — the absent marker is
distinct from every present value, in particular from price 0. -/
theorem C9_absent_price_fingerprint (p : IConfigDevprod) (v : Nat) :
    p.price = none → getHash p ≠ getHash { p with price := some v } := by
  intro hnone h
  have hp := congrArg HashProduct.price h
  simp [getHash, hnone] at hp

/-- Witness for C9_absent_price_fingerprint at price 0. -/
theorem C9_absent_price_fingerprint_witness :
    baseEntry.price = none ∧
      getHash baseEntry ≠ getHash { baseEntry with price := some 0 } :=
  ⟨rfl, C9_absent_price_fingerprint baseEntry 0 rfl⟩

/-- C6 (corrected): counted with multiplicity, every entry of the catalogue
appears in exactly one of the four action buckets toAdd, toNotAdd,
toUpdate, toNotUpdate; the fifth list, outdated, is a reporting list that
duplicates entries also present in toUpdate or toNotUpdate. -/
theorem C6_action_bucket_partition (config : IConfig) (o : IOptions) (e : IConfigDevprod) :
    ((checkEntries config o).toAdd.count e + (checkEntries config o).toNotAdd.count e +
        (checkEntries config o).toUpdate.count e +
        (checkEntries config o).toNotUpdate.count e =
      config.products.count e + config.gamepasses.count e) ∧
    (e ∈ (checkEntries config o).outdated →
      e ∈ (checkEntries config o).toUpdate ∨ e ∈ (checkEntries config o).toNotUpdate) := by
  constructor
  · rw [checkEntries_eq]
    simp only [List.count_append, count_filter_ite]
    unfold prodToAddP prodToNotAddP prodToUpdateP prodToNotUpdateP gpToNotAddP gpToUpdateP gpToNotUpdateP
    by_cases h1 : e.productId.isNone <;> by_cases h2 : e.gamepassId.isNone <;>
      by_cases h3 : o.create <;> by_cases h4 : isEntryOutdated e <;>
      by_cases h5 : o.update <;> by_cases h6 : o.updateAll <;>
        simp [h1, h2, h3, h4, h5, h6] <;> omega
  · rw [checkEntries_eq]
    simp only [List.mem_append, List.mem_filter]
    unfold prodOutdatedP gpOutdatedP prodToUpdateP prodToNotUpdateP gpToUpdateP gpToNotUpdateP
    intro h
    by_cases hu : (o.update || o.updateAll) = true <;>
      rcases h with ⟨hm, hp⟩ | ⟨hm, hp⟩ <;>
      simp_all

/-- C6 counterexample: an existing product with a stale fingerprint and all
flags off occurs twice across the five buckets — once in outdated and once
in toNotUpdate — so not in exactly one of the five. -/
theorem C6_counterexample :
    (checkEntries cfgProdStale optsNone).toAdd.count prodStale +
        (checkEntries cfgProdStale optsNone).toNotAdd.count prodStale +
        (checkEntries cfgProdStale optsNone).outdated.count prodStale +
        (checkEntries cfgProdStale optsNone).toUpdate.count prodStale +
        (checkEntries cfgProdStale optsNone).toNotUpdate.count prodStale = 2 := by
  decide

/-- Witness for C6_action_bucket_partition: the outdated product of the
counterexample catalogue indeed also appears in an update bucket. -/
theorem C6_action_bucket_partition_witness :
    prodStale ∈ (checkEntries cfgProdStale optsNone).outdated ∧
      (prodStale ∈ (checkEntries cfgProdStale optsNone).toUpdate ∨
        prodStale ∈ (checkEntries cfgProdStale optsNone).toNotUpdate) := by
  have h : prodStale ∈ (checkEntries cfgProdStale optsNone).outdated := by decide
  exact ⟨h, (C6_action_bucket_partition cfgProdStale optsNone prodStale).2 h⟩

/-- C3 (code bug): checkHashEntries gates its gamepasses loop on productId
instead of gamepassId, so an existing gamepass (gamepassId present,
productId absent, stored fingerprint missing) is reported in neither
toUpdate nor toNotUpdate, even though the operation it previews,
hashEntries, does process that same entry (total = updated = 1). -/
theorem C3_gamepass_preview_dropped :
    gpOne.gamepassId = some 1 ∧ gpOne.productId = none ∧
      checkHashEntries cfgGpOne = { toUpdate := [], toNotUpdate := [] } ∧
      (hashEntries cfgGpOne).2 = { total := 1, updated := 1 } := by
  exact ⟨rfl, rfl, rfl, rfl⟩

/-- C7: the update adapters applied to an entry whose corresponding remote
identifier is not a number fail with the runtime-guard contract error
before any network call: the call trace is empty, no updated entry is
produced, and the outcome is the same for every network oracle. -/
theorem C7_update_guard (env : RobloxEnv) (u : Nat) (p : IConfigDevprod) :
    (p.productId = none →
      updateProduct env u p =
        ([], .error (.contract "Bad or missing productId at runtime"))) ∧
    (p.gamepassId = none →
      updateGamepass env u p =
        ([], .error (.contract "Bad or missing gamepassId at runtime"))) := by
  constructor
  · intro h; simp [updateProduct, h]
  · intro h; simp [updateGamepass, h]

/-- Witness for C7_update_guard at an entry with both ids absent. -/
theorem C7_update_guard_witness :
    updateProduct envFail 1 baseEntry =
        ([], .error (.contract "Bad or missing productId at runtime")) ∧
      updateGamepass envFail 1 baseEntry =
        ([], .error (.contract "Bad or missing gamepassId at runtime")) :=
  ⟨(C7_update_guard envFail 1 baseEntry).1 rfl, (C7_update_guard envFail 1 baseEntry).2 rfl⟩

/-- C4: a first attempt failing with the token-rejection signal causes the
call to be reissued exactly once, and the second outcome — success or any
failure, including a repeat rejection — is surfaced unmodified with no
third attempt; a first-attempt failure that is not the token rejection
propagates immediately with a single attempt. -/
theorem C4_retry_protocol (transport : Nat → Except ErrResp Resp) (tok : Option String) (e : ErrResp) :
    (transport 0 = .error e → isTokenRejection e = true →
      (robloxRequest transport tok).attempts = 2 ∧
        (robloxRequest transport tok).result = transport 1) ∧
    (transport 0 = .error e → isTokenRejection e = false →
      (robloxRequest transport tok).attempts = 1 ∧
        (robloxRequest transport tok).result = .error e) := by
  constructor
  · intro h0 hrej; simp [robloxRequest, h0, hrej]
  · intro h0 hrej; simp [robloxRequest, h0, hrej]

/-- Witness for C4_retry_protocol: a rejected-then-successful session makes
exactly two attempts and surfaces the success; a plain 500 makes one
attempt and surfaces the error. -/
theorem C4_retry_protocol_witness :
    ((robloxRequest transportRetryOk none).attempts = 2 ∧
        (robloxRequest transportRetryOk none).result = transportRetryOk 1) ∧
      ((robloxRequest transportFail500 none).attempts = 1 ∧
        (robloxRequest transportFail500 none).result =
          .error { token := none, statusCode := some 500,
                   statusMessage := some "Internal Server Error" }) := by
  constructor
  · exact (C4_retry_protocol transportRetryOk none
      { token := some "a", statusCode := some 403,
        statusMessage := some "Token Validation Failed" }).1 rfl (by decide)
  · exact (C4_retry_protocol transportFail500 none
      { token := none, statusCode := some 500,
        statusMessage := some "Internal Server Error" }).2 rfl (by decide)

/-- C5 (corrected): the stored session token is updated from the first
attempt's response only — success or failure, a non-empty refreshed token
replacing any prior value — and the retry attempt's response never updates
it: the token after the call depends only on the first attempt's
outcome. -/
theorem C5_token_update (transport : Nat → Except ErrResp Resp) (tok : Option String) :
    (∀ r, transport 0 = .ok r →
      (robloxRequest transport tok).lastToken = tokenUpdate tok r.token) ∧
    (∀ e, transport 0 = .error e →
      (robloxRequest transport tok).lastToken = tokenUpdate tok e.token) ∧
    (∀ transport2 : Nat → Except ErrResp Resp, transport2 0 = transport 0 →
      (robloxRequest transport2 tok).lastToken = (robloxRequest transport tok).lastToken) := by
  refine ⟨?_, ?_, ?_⟩
  · intro r h; simp [robloxRequest, h]
  · intro e h
    simp only [robloxRequest, h]
    by_cases hrej : isTokenRejection e <;> simp [hrej]
  · intro t2 h
    unfold robloxRequest
    rw [h]
    cases htr : transport 0 with
    | ok r => rfl
    | error e => by_cases hrej : isTokenRejection e <;> simp [hrej]

/-- Witness for C5_token_update: in the rejected-then-successful session the
stored token is the one carried by the first, failing response. -/
theorem C5_token_update_witness :
    (robloxRequest transportRetryOk none).lastToken = tokenUpdate none (some "a") := by
  exact (C5_token_update transportRetryOk none).2.1
    { token := some "a", statusCode := some 403,
      statusMessage := some "Token Validation Failed" } rfl

/-- C5 counterexample: the response handled by the retry carries refreshed
token "b", yet the stored session token after the call is "a", the token of
the first failing response — the retry's token value is not stored. -/
theorem C5_counterexample :
    (robloxRequest transportRetryOk none).result = .ok { token := some "b" } ∧
      (robloxRequest transportRetryOk none).lastToken = some "a" ∧
      (some "a" : Option String) ≠ some "b" := by
  exact ⟨rfl, rfl, by decide⟩

/-- Every toAdd entry yields exactly one outcome: successes and failures
together number the processed entries. -/
theorem processAdds_length (env : RobloxEnv) (u : Nat) (l : List IConfigDevprod) :
    (processAdds env u l).1.length + (processAdds env u l).2.1.length = l.length := by
  induction l with
  | nil => rfl
  | cons p rest ih =>
    cases h : (addProduct env u p).2 <;>
      simp only [processAdds, h, List.length_cons] <;> omega

/-- Every recorded add failure pairs its error with an entry of the
processed list, in its pre-call state. -/
theorem processAdds_failed_mem (env : RobloxEnv) (u : Nat) (l : List IConfigDevprod) :
    ∀ pe ∈ (processAdds env u l).2.1, pe.1 ∈ l := by
  induction l with
  | nil => intro pe h; simp [processAdds] at h
  | cons p rest ih =>
    intro pe hpe
    cases h : (addProduct env u p).2 with
    | ok updated =>
      simp only [processAdds, h] at hpe
      exact List.mem_cons_of_mem _ (ih pe hpe)
    | error e =>
      simp only [processAdds, h, List.mem_cons] at hpe
      rcases hpe with h1 | h2
      · rw [h1]; exact List.mem_cons_self _ _
      · exact List.mem_cons_of_mem _ (ih pe h2)

/-- Every toUpdate entry yields exactly one outcome: successes and failures
together number the processed entries. -/
theorem processUpdates_length (env : RobloxEnv) (u : Nat) (l : List IConfigDevprod) :
    (processUpdates env u l).1.length + (processUpdates env u l).2.1.length = l.length := by
  induction l with
  | nil => rfl
  | cons p rest ih =>
    cases h : (if truthy p.productId then updateProduct env u p
        else if truthy p.gamepassId then updateGamepass env u p
        else ([], .ok p)).2 <;>
      simp only [processUpdates, h, List.length_cons] <;> omega

/-- Every recorded update failure pairs its error with an entry of the
processed list, in its pre-call state. -/
theorem processUpdates_failed_mem (env : RobloxEnv) (u : Nat) (l : List IConfigDevprod) :
    ∀ pe ∈ (processUpdates env u l).2.1, pe.1 ∈ l := by
  induction l with
  | nil => intro pe h; simp [processUpdates] at h
  | cons p rest ih =>
    intro pe hpe
    cases h : (if truthy p.productId then updateProduct env u p
        else if truthy p.gamepassId then updateGamepass env u p
        else ([], .ok p)).2 with
    | ok updated =>
      simp only [processUpdates, h] at hpe
      exact List.mem_cons_of_mem _ (ih pe hpe)
    | error e =>
      simp only [processUpdates, h, List.mem_cons] at hpe
      rcases hpe with h1 | h2
      · rw [h1]; exact List.mem_cons_self _ _
      · exact List.mem_cons_of_mem _ (ih pe h2)

/-- C8: in updateEntries each classified entry produces exactly one
recorded outcome — success and failure lists together enumerate the whole
batch, so one entry's failure never aborts it — and every recorded failure
carries its entry in the pre-call state listed by the classification, hence
with its old remoteId and storedFingerprint intact. -/
theorem C8_partial_failure (env : RobloxEnv) (config : IConfig) (options : IOptions) :
    (updateEntries env config options).addSuccess.length +
        (updateEntries env config options).addFailed.length =
      (checkEntries config options).toAdd.length ∧
    (updateEntries env config options).updateSuccess.length +
        (updateEntries env config options).updateFailed.length =
      (checkEntries config options).toUpdate.length ∧
    (∀ pe ∈ (updateEntries env config options).addFailed,
      pe.1 ∈ (checkEntries config options).toAdd) ∧
    (∀ pe ∈ (updateEntries env config options).updateFailed,
      pe.1 ∈ (checkEntries config options).toUpdate) := by
  refine ⟨?_, ?_, ?_, ?_⟩ <;> simp only [updateEntries]
  · exact processAdds_length env config.universeId _
  · exact processUpdates_length env config.universeId _
  · exact processAdds_failed_mem env config.universeId _
  · exact processUpdates_failed_mem env config.universeId _

/-- Witness for C8_partial_failure: with a failing oracle, the outdated
product's failure is recorded and the recorded entry is the pre-call
classified entry. -/
theorem C8_partial_failure_witness :
    (prodStale, EntryError.devprod { code := -1, message := "fail" }) ∈
        (updateEntries envFail cfgProdStale optsUpdate).updateFailed ∧
      prodStale ∈ (checkEntries cfgProdStale optsUpdate).toUpdate := by
  have hmem : (prodStale, EntryError.devprod { code := -1, message := "fail" }) ∈
      (updateEntries envFail cfgProdStale optsUpdate).updateFailed := by decide
  exact ⟨hmem, (C8_partial_failure envFail cfgProdStale optsUpdate).2.2.2 _ hmem⟩

/-- C10: an entry classified for update whose productId and gamepassId are
both falsy — here productId = 0 — is recorded in updateSuccess unchanged:
no adapter runs, the network trace is empty, and its stored fingerprint is
not rewritten. Holds for every network oracle. -/
theorem C10_falsy_ids_vacuous_success (env : RobloxEnv) :
    prodZero ∈ (checkEntries cfgProdZero optsUpdate).toUpdate ∧
      (updateEntries env cfgProdZero optsUpdate).updateSuccess = [prodZero] ∧
      (updateEntries env cfgProdZero optsUpdate).calls = [] ∧
      (updateEntries env cfgProdZero optsUpdate).updateFailed = [] ∧
      prodZero.uploadedHash = none := by
  exact ⟨by decide, rfl, rfl, rfl, rfl⟩
